import Mathlib

/-!
Shallow embedding of the rateLimiter repository (Go) for checking its
natural-language specification.

Conventions used throughout:
* Go `float64` values (token counts, rates, seconds) are modelled as exact
  rationals `ℚ`; the claims under check are about the algorithm, not about
  floating-point rounding.
* Go `time.Time` values are modelled as rational "seconds since epoch";
  the zero `time.Time` (the `IsZero` sentinel) is the rational `0`, and a
  real clock reading (`time.Now()`) is any value, positive in practice.
  Within one call to `checkTokenBucket` every `time.Now()` in the call's
  dynamic extent (the engine's own `now`, the one taken inside `GetBucket`
  for a missing key, and the one taken inside `UpdateBucket`) is modelled
  as the same instant `now`, the most favourable reading for the code.
* Fallible Go calls are modelled with `Except Unit` (the error payload
  does not influence control flow in the source), or with an explicit
  error flag in a returned tuple.
-/

namespace RateLimiter

/-- `SecurityConfig` from the source (the policy-model file): bypass
tokens, IP whitelist, authentication requirement, and the failed-attempt
blocking parameters.  `BlockDuration` (a Go `time.Duration`) is modelled
in seconds. -/
structure SecurityConfig where
  BypassTokens : List String
  WhitelistIPs : List String
  RequireAuthentication : Bool
  MaxFailedAttempts : Int
  BlockDuration : ℚ
  deriving DecidableEq

/-- `Policy` from the source (the variant that carries `Security`, used by
the HTTP handler): the rate-limiting parameters of a tier. -/
structure Policy where
  MaxRequests : Int
  BurstCapacity : Int
  TokensPerSecond : ℚ
  WebSocketAllowed : Bool
  Security : SecurityConfig
  deriving DecidableEq

/-- `RateLimiterConfig` from the source, restricted to the fields the core
uses.  `cfg.Redis != nil` is modelled by passing an `Option` redis state
into the security functions; `GetUserID` / `GetUserTier` callbacks are
modelled by the resolved strings carried on the request.  `keyPfx` is the
source's key-prefix configuration field. -/
structure RateLimiterConfig where
  TierPolicy : List (String × Policy)
  DefaultPolicy : Policy
  keyPfx : String
  GlobalSecurity : SecurityConfig
  deriving DecidableEq

/-- `bucketState` from storage.go: one in-memory bucket entry. -/
structure BucketState where
  tokens : ℚ
  lastUpdate : ℚ
  expiry : ℚ
  deriving DecidableEq

/-- A storage backend as seen by the engine: the in-memory map semantics of
storage.go plus fault-injection flags mirroring the test double
`FailingStorage` (bucket_test.go) and remote-store failures.  `getErr`
makes `GetBucket` fail, `updErr` makes `UpdateBucket` fail (and drop the
write).  The opportunistic cleanup of expired entries above 10000 map
entries is not modelled: it deletes only entries that `GetBucket` already
treats as absent, so it is invisible to the values read. -/
structure Store where
  buckets : String → Option BucketState
  getErr : Bool
  updErr : Bool

/-- `InMemoryStorage.GetBucket` (storage.go lines 62-72): a missing key, or
an entry whose expiry lies strictly in the past (`time.Now().After`),
yields tokens `0` and — as the source is written — `time.Now()` as the
last-update value, with no error. -/
def inMemoryGetBucket (buckets : String → Option BucketState) (now : ℚ)
    (key : String) : ℚ × ℚ :=
  match buckets key with
  | none => (0, now)
  | some b => if b.expiry < now then (0, now) else (b.tokens, b.lastUpdate)

/-- `RedisStorage.GetBucket` (storage.go lines 100-125).  The stored hash is
modelled as the decoded `(tokens, lastUpdate)` pair: the serialization of
the two fields round-trips exactly (spec section 6), so the parse-error
branches correspond to externally corrupted data and are not reachable
through the engine's own writes.  A missing or TTL-expired key gives an
empty hash, for which the source returns tokens `0`, `time.Now()` as the
last-update value, and no error; a transport error is reported. -/
def redisGetBucket (data : String → Option (ℚ × ℚ)) (fail : Bool) (now : ℚ)
    (key : String) : Except Unit (ℚ × ℚ) :=
  if fail then Except.error () else
    match data key with
    | none => Except.ok (0, now)
    | some v => Except.ok v

/-- `Storage.GetBucket` as used by the engine: the in-memory semantics
behind a fault flag (a failing backend returns its error to the caller). -/
def Store.getBucket (s : Store) (now : ℚ) (key : String) :
    Except Unit (ℚ × ℚ) :=
  if s.getErr then Except.error () else
    Except.ok (inMemoryGetBucket s.buckets now key)

/-- `Storage.UpdateBucket` (storage.go lines 76-96): stores the tokens,
stamps `lastUpdate` with the write-time clock and `expiry` with
`now + ttl`.  On a failing backend the write is dropped and an error
reported (second component `true` means the call errored). -/
def Store.updateBucket (s : Store) (now : ℚ) (key : String) (tokens ttl : ℚ) :
    Store × Bool :=
  if s.updErr then (s, true) else
    ({ s with buckets := fun k =>
        if k = key then some ⟨tokens, now, now + ttl⟩ else s.buckets k },
     false)

/-- Go's `int64(f)` / `time.Duration(f)` conversion of a float: truncation
toward zero, on our rational model. -/
def truncQ (q : ℚ) : ℤ :=
  q.num.tdiv (q.den : ℤ)

/-- The refill computation of `checkTokenBucket` (bucket.go lines 50-55):
`elapsed := now - lastUpdate`, `refilled := elapsed * TokensPerSecond`,
`tokens := min(BurstCapacity, tokens + refilled)`. -/
def refillTokens (pol : Policy) (tokens lastUpdate now : ℚ) : ℚ :=
  min ((pol.BurstCapacity : ℚ)) (tokens + (now - lastUpdate) * pol.TokensPerSecond)

/-- `updateBothStorages` (bucket.go lines 81-89): best-effort write of the
bucket state to both stores; errors from either store are dropped. -/
def updateBothStorages (key : String) (tokens ttl now : ℚ)
    (primary fallback : Store) : Store × Store :=
  ((primary.updateBucket now key tokens ttl).1,
   (fallback.updateBucket now key tokens ttl).1)

/-- The consume-or-deny tail of `checkTokenBucket` (bucket.go lines 57-75):
with fewer than one token, compute `secondsToWait = ceil(needed / rate)`
floored at 1, persist the unconsumed balance and deny; otherwise consume
one token, persist, and allow.  Result layout:
`((allowed, secondsToWait, errored), primary, fallback)`. -/
def finishCheck (primary fallback : Store) (key : String) (pol : Policy)
    (now tokens ttl : ℚ) : (Bool × Int × Bool) × Store × Store :=
  if tokens < 1 then
    let tokensNeeded := 1 - tokens
    let s0 : Int := Int.ceil (tokensNeeded / pol.TokensPerSecond)
    let secondsToWait := if s0 < 1 then 1 else s0
    ((false, secondsToWait, false),
     updateBothStorages key tokens ttl now primary fallback)
  else
    ((true, 0, false),
     updateBothStorages key (tokens - 1) ttl now primary fallback)

/-- The read phase of `checkTokenBucket` (bucket.go lines 33-40): read the
primary store, on error read the fallback store, and report an error only
when both reads fail. -/
def bucketReadResult (primary fallback : Store) (now : ℚ) (key : String) :
    Except Unit (ℚ × ℚ) :=
  match primary.getBucket now key with
  | Except.ok v => Except.ok v
  | Except.error _ => fallback.getBucket now key

/-- The TTL used on every persist (bucket.go line 43):
`time.Duration(float64(BurstCapacity)/TokensPerSecond) * time.Second`,
i.e. the full-refill time truncated to whole seconds. -/
def bucketTTL (pol : Policy) : ℚ :=
  ((truncQ ((pol.BurstCapacity : ℚ) / pol.TokensPerSecond) : ℤ) : ℚ)

/-- `checkTokenBucket` (bucket.go lines 23-76).  Dual read with fallback;
a zero `lastUpdate` initializes the bucket to full capacity (persisting
immediately); otherwise the continuous refill formula applies; then the
consume-or-deny tail runs.  Returns the result triple together with the
two post-call stores. -/
def checkTokenBucket (primary fallback : Store) (key : String) (pol : Policy)
    (now : ℚ) : (Bool × Int × Bool) × Store × Store :=
  match bucketReadResult primary fallback now key with
  | Except.error _ => ((false, 0, true), primary, fallback)
  | Except.ok (tokens, lastUpdate) =>
    let ttl := bucketTTL pol
    if lastUpdate = 0 then
      let tokens : ℚ := (pol.BurstCapacity : ℚ)
      let st := updateBothStorages key tokens ttl now primary fallback
      finishCheck st.1 st.2 key pol now tokens ttl
    else
      finishCheck primary fallback key pol now
        (refillTokens pol tokens lastUpdate now) ttl

/-- `SecurityConfig.ValidateBypassToken` from the source: an empty token is
rejected, otherwise the token is compared against every configured bypass
token.  The source compares SHA-256 hex digests; the comparison is
modelled as string equality (SHA-256 is deterministic, so equal digests
correspond to equal strings, collisions aside). -/
def SecurityConfig.ValidateBypassToken (sc : SecurityConfig) (token : String) : Bool :=
  if token = "" then false else sc.BypassTokens.contains token

/-- `SecurityConfig.IsIPWhitelisted` from the source: a plain membership
test of the IP string against the whitelist entries — exact string
equality, no CIDR interpretation. -/
def SecurityConfig.IsIPWhitelisted (sc : SecurityConfig) (ip : String) : Bool :=
  sc.WhitelistIPs.contains ip

/-- Block-state key: `fmt.Sprintf("%s:blocked:%s", cfg.KeyPrefix, ip)`. -/
def blockKeyFor (cfg : RateLimiterConfig) (ip : String) : String :=
  cfg.keyPfx ++ ":blocked:" ++ ip

/-- Failed-attempt key: `fmt.Sprintf("%s:failed:%s", cfg.KeyPrefix, ip)`. -/
def failedKeyFor (cfg : RateLimiterConfig) (ip : String) : String :=
  cfg.keyPfx ++ ":failed:" ++ ip

/-- A live redis counter entry: its value and the absolute time at which
its TTL expires. -/
structure FailedEntry where
  count : Int
  expiresAt : ℚ
  deriving DecidableEq

/-- The security-relevant state of the redis client used by
`checkIPBlocked` / `recordFailedAttempt`: failed-attempt counters (with
TTL), block keys (stored as absolute `blockedUntil` instants, standing
for the value `true` with the block duration as TTL), and a command
failure flag modelling network errors of the pipelined commands. -/
structure RedisSecState where
  failed : String → Option FailedEntry
  blockedUntil : String → Option ℚ
  cmdErr : Bool

/-- The value `GET failedKey` observes at `now`: `0` for a missing or
TTL-expired key, else the stored count. -/
def liveFailed (rs : RedisSecState) (now : ℚ) (key : String) : Int :=
  match rs.failed key with
  | none => 0
  | some e => if now < e.expiresAt then e.count else 0

/-- What `GET blockKey` / `TTL blockKey` observe at `now`: the remaining
block time if the key is still live, else absence. -/
def liveBlockRemaining (rs : RedisSecState) (now : ℚ) (key : String) : Option ℚ :=
  match rs.blockedUntil key with
  | none => none
  | some u => if now < u then some (u - now) else none

/-- Observable outcome of `checkIPBlocked`: the Go function returns
`(bool, error)` and may render a 429 response; the constructors record
which branch fired.  `blockedResp` carries `int(ttl.Seconds())`,
`slowdownResp` carries the advisory retry-after of the progressive
slowdown. -/
inductive BlockCheckResult where
  | err : BlockCheckResult
  | blockedResp : Int → BlockCheckResult
  | slowdownResp : Int → BlockCheckResult
  | clear : BlockCheckResult
  deriving DecidableEq

/-- `checkIPBlocked` from the source (the security/handler file, lines
41-95).  With no redis client it reports clear immediately.  Otherwise it
reads the block key and the failed counter; an active block is reported
with its remaining TTL truncated to seconds; else a positive failed count
yields the progressive slowdown `min(30s, count*5s)`; else clear. -/
def checkIPBlocked (cfg : RateLimiterConfig) (ip : String)
    (redis : Option RedisSecState) (now : ℚ) : BlockCheckResult :=
  match redis with
  | none => BlockCheckResult.clear
  | some rs =>
    if rs.cmdErr then BlockCheckResult.err else
    match liveBlockRemaining rs now (blockKeyFor cfg ip) with
    | some ttl => BlockCheckResult.blockedResp (truncQ ttl)
    | none =>
      let failedAttempts := liveFailed rs now (failedKeyFor cfg ip)
      if 0 < failedAttempts then
        BlockCheckResult.slowdownResp (min 30 (failedAttempts * 5))
      else BlockCheckResult.clear

/-- Observable outcome of `checkSecurity`.  In Go the function returns
`(bypass bool, err error)`; the blocked and slowdown branches render a
429 response and then return `(false, nil)`, so the constructors
`respondBlocked` / `respondSlowdown` record the rendered response while
behaving like `proceed` for the caller's control flow. -/
inductive SecOutcome where
  | bypass : SecOutcome
  | err : SecOutcome
  | respondBlocked : Int → SecOutcome
  | respondSlowdown : Int → SecOutcome
  | proceed : SecOutcome
  deriving DecidableEq

/-- `checkSecurity` from the source (lines 14-38): first the bypass token
(only a non-empty header is validated), then the IP whitelist, and only
otherwise the block / failed-attempt state. -/
def checkSecurity (cfg : RateLimiterConfig) (token ip : String)
    (redis : Option RedisSecState) (now : ℚ) : SecOutcome :=
  if token ≠ "" ∧ cfg.GlobalSecurity.ValidateBypassToken token then
    SecOutcome.bypass
  else if cfg.GlobalSecurity.IsIPWhitelisted ip then
    SecOutcome.bypass
  else
    match checkIPBlocked cfg ip redis now with
    | BlockCheckResult.err => SecOutcome.err
    | BlockCheckResult.blockedResp r => SecOutcome.respondBlocked r
    | BlockCheckResult.slowdownResp r => SecOutcome.respondSlowdown r
    | BlockCheckResult.clear => SecOutcome.proceed

/-- How a call of a Go function ends: a nil return, a returned error, or
a runtime panic. -/
inductive GoOutcome where
  | ok : GoOutcome
  | err : GoOutcome
  | panicked : GoOutcome
  deriving DecidableEq

/-- `recordFailedAttempt` from the source (lines 98-142).  With no redis
client it does nothing.  Otherwise the pipeline queues `Incr` on the
failed key (results[0], an IntCmd), `Expire` 24h (results[1], a BoolCmd)
and `Get` (results[2], a StringCmd); a pipeline error is returned with no
modelled effect.  On success the increment and the TTL re-arm have taken
effect — and then the source reads the count as
`results[1].(*redis.IntCmd).Val()`: a single-value type assertion on the
`Expire` command's BoolCmd, which panics.  The threshold comparison and
the block write below it (source lines 120-137) are therefore
unreachable: the call crashes after the increment, the block key is
never written, and the crash is modelled as the `panicked` outcome. -/
def recordFailedAttempt (cfg : RateLimiterConfig) (ip : String)
    (redis : Option RedisSecState) (now : ℚ) :
    Option RedisSecState × GoOutcome :=
  match redis with
  | none => (none, GoOutcome.ok)
  | some rs =>
    if rs.cmdErr then (some rs, GoOutcome.err) else
    let fk := failedKeyFor cfg ip
    let c1 := liveFailed rs now fk + 1
    let rs1 : RedisSecState :=
      { rs with failed := fun k =>
          if k = fk then some ⟨c1, now + 86400⟩ else rs.failed k }
    (some rs1, GoOutcome.panicked)

/-- The inputs the HTTP handler extracts from a fiber request context:
`userID` and `tier` are the results of the `GetUserID` / `GetUserTier`
callbacks (empty string means unresolved), `ip` is `c.IP()`,
`routePath` is `c.Route().Path`, `bypassHeader` is the
X-RateLimit-Bypass header value. -/
structure Request where
  userID : String
  tier : String
  ip : String
  routePath : String
  bypassHeader : String
  deriving DecidableEq

/-- Observable outcome of `HandleHTTPRequest`: pass the request on
(`c.Next()`), reject with 429 and a retry-after, fail with 500 on a dual
storage read failure, propagate a security-check error, or crash on a
propagating panic. -/
inductive HttpOutcome where
  | next : HttpOutcome
  | tooMany : Int → HttpOutcome
  | internalErr : HttpOutcome
  | secErr : HttpOutcome
  | panicked : HttpOutcome
  deriving DecidableEq

/-- The mutable world a request runs against: the two bucket stores and
the redis security state (`none` models `cfg.Redis == nil`). -/
structure SysState where
  primary : Store
  fallback : Store
  redis : Option RedisSecState

/-- Identifier resolution in the handler: `GetUserID`, defaulting to the
request IP. -/
def resolveIdentifier (req : Request) : String :=
  if req.userID = "" then req.ip else req.userID

/-- Tier resolution in the handler: `GetUserTier`, defaulting to the
free tier. -/
def resolveTier (req : Request) : String :=
  if req.tier = "" then "free" else req.tier

/-- Policy lookup: `cfg.TierPolicy[tier]`, else `cfg.DefaultPolicy`.
(Reading a Go map of struct values copies the struct.) -/
def resolvePolicy (cfg : RateLimiterConfig) (tier : String) : Policy :=
  match cfg.TierPolicy.lookup tier with
  | some p => p
  | none => cfg.DefaultPolicy

/-- The policy actually handed to the token-bucket check by
`HandleHTTPRequest` (source lines 225-242): the resolved tier policy,
with `TokensPerSecond * 0.5` and `BurstCapacity / 2` (Go integer
division) applied to the local copy when the policy requires
authentication and the identifier resolved to the request IP. -/
def effectivePolicy (cfg : RateLimiterConfig) (req : Request) : Policy :=
  let identifier := resolveIdentifier req
  let policy := resolvePolicy cfg (resolveTier req)
  if policy.Security.RequireAuthentication ∧ identifier = req.ip then
    { policy with TokensPerSecond := policy.TokensPerSecond * (1 / 2),
                  BurstCapacity := policy.BurstCapacity / 2 }
  else policy

/-- `strings.Trim(p, "/")` followed by `strings.ReplaceAll(_, "/", "_")`:
the endpoint slug the handler builds from the route path. -/
def endpointSlug (p : String) : String :=
  ((p.dropWhile (fun c => c = '/')).dropRightWhile (fun c => c = '/')).replace ("/") ("_")

/-- `strings.Contains`, via `splitOn`: a non-empty pattern occurs in `s`
iff splitting on it yields more than one piece. -/
def containsSub (s pat : String) : Bool :=
  (s.splitOn pat).length > 1

/-- The handler records a failed attempt only on denials of endpoints
whose slug contains "auth" or "login" (source lines 255-261). -/
def isAuthEndpoint (endpoint : String) : Bool :=
  containsSub endpoint ("auth") || containsSub endpoint ("login")

/-- The bucket key the handler builds:
`fmt.Sprintf("%s:%s:%s", cfg.KeyPrefix, identifier, endpoint)`. -/
def bucketKey (cfg : RateLimiterConfig) (identifier endpoint : String) : String :=
  cfg.keyPfx ++ ":" ++ identifier ++ ":" ++ endpoint

/-- `HandleHTTPRequest` from the source (lines 203-275).  Security check
first: a bypass skips rate limiting entirely; a security error
propagates; the blocked / slowdown branches of `checkSecurity` return
`(false, nil)` in Go and therefore fall through to rate limiting, as
does the clear branch.  Then identity, tier and policy are resolved, the
authentication halving is applied to the local policy copy, and the
token bucket decides; on denial of an auth endpoint the failed attempt
is recorded before responding 429 — a returned error from the recording
is logged and the 429 still rendered, while its panic propagates and
crashes the handler. -/
def HandleHTTPRequest (cfg : RateLimiterConfig) (req : Request)
    (st : SysState) (now : ℚ) : HttpOutcome × SysState :=
  match checkSecurity cfg req.bypassHeader req.ip st.redis now with
  | SecOutcome.bypass => (HttpOutcome.next, st)
  | SecOutcome.err => (HttpOutcome.secErr, st)
  | _ =>
    let identifier := resolveIdentifier req
    let policy := effectivePolicy cfg req
    let endpoint := endpointSlug req.routePath
    let key := bucketKey cfg identifier endpoint
    let r := checkTokenBucket st.primary st.fallback key policy now
    let st1 : SysState := { st with primary := r.2.1, fallback := r.2.2 }
    if r.1.2.2 then (HttpOutcome.internalErr, st1)
    else if r.1.1 then (HttpOutcome.next, st1)
    else
      if isAuthEndpoint endpoint then
        let rfa := recordFailedAttempt cfg req.ip st1.redis now
        match rfa.2 with
        | GoOutcome.panicked =>
          (HttpOutcome.panicked, { st1 with redis := rfa.1 })
        | _ => (HttpOutcome.tooMany r.1.2.1, { st1 with redis := rfa.1 })
      else (HttpOutcome.tooMany r.1.2.1, st1)

/-! ## Concrete fixtures used by evaluation theorems and witnesses -/

/-- A security config with no bypass tokens, no whitelist, threshold 3 and
a 10-minute base block duration. -/
def secPlain : SecurityConfig :=
  { BypassTokens := [], WhitelistIPs := [], RequireAuthentication := false,
    MaxFailedAttempts := 3, BlockDuration := 600 }

/-- The policy of bucket_test.go: burst capacity 5, two tokens per second. -/
def polTest : Policy :=
  { MaxRequests := 100, BurstCapacity := 5, TokensPerSecond := 2,
    WebSocketAllowed := true, Security := secPlain }

/-- A store holding no buckets and injecting no faults. -/
def emptyStore : Store :=
  { buckets := fun _ => none, getErr := false, updErr := false }

/-! ## Claims -/

/-- C1.  The claim (and the repository's own test
`TestCheckTokenBucket / New bucket initialization`) expects the first
check on a fresh key to be allowed with `retryAfter = 0`.  The code
denies it: on a missing key `GetBucket` returns `time.Now()` rather than
the zero time, so the initialization branch of `checkTokenBucket` never
runs and the bucket is treated as holding 0 tokens.  Evaluated here at a
fresh key, both stores empty and healthy, clock at 100: the first call
returns `(allowed = false, retryAfter = 1, err = nil)`. -/
theorem C1_fresh_key_first_check_denied :
    (checkTokenBucket emptyStore emptyStore ("test1") polTest 100).1
      = (false, 1, false) := by
  simp only [checkTokenBucket, bucketReadResult, Store.getBucket,
    inMemoryGetBucket, emptyStore, polTest, secPlain, bucketTTL, truncQ,
    refillTokens, finishCheck, updateBothStorages, Store.updateBucket]
  norm_num [Int.ceil_eq_iff]

/-- C2.  The claim says `GetBucket` on a missing or expired key returns a
zero last-update timestamp.  The code returns the current clock reading
instead (storage.go lines 68 and 109): evaluated at clock 100, a missing
key and an expired entry (expiry 50 < 100) both yield
`(tokens = 0, lastUpdate = 100)` from the in-memory store, and a missing
key yields `(0, 100)` without error from the remote store; `100 ≠ 0`.
(The no-error-on-absence half of the claim does hold.) -/
theorem C2_missing_key_lastUpdate_is_now :
    inMemoryGetBucket (fun _ => none) 100 ("k") = (0, 100)
    ∧ inMemoryGetBucket
        (fun k => if k = "k" then some ⟨3, 40, 50⟩ else none) 100 ("k")
        = (0, 100)
    ∧ redisGetBucket (fun _ => none) false 100 ("k") = Except.ok (0, 100)
    ∧ (100 : ℚ) ≠ 0 := by
  refine ⟨rfl, ?_, rfl, by norm_num⟩
  simp only [inMemoryGetBucket]
  norm_num

/-- C10.  With no redis client configured, the blocking machinery is
inert: `checkIPBlocked` always reports clear (no block, no slowdown),
`recordFailedAttempt` records nothing and returns nil (its crash path is
behind the `cfg.Redis != nil` guard and unreachable), `checkSecurity`
can only bypass or proceed, and a full HTTP-request handling leaves the
(absent) redis state absent. -/
theorem C10_no_redis_inert :
    (∀ cfg ip now, checkIPBlocked cfg ip none now = BlockCheckResult.clear)
    ∧ (∀ cfg ip now, recordFailedAttempt cfg ip none now = (none, GoOutcome.ok))
    ∧ (∀ cfg tok ip now,
        checkSecurity cfg tok ip none now = SecOutcome.bypass ∨
        checkSecurity cfg tok ip none now = SecOutcome.proceed)
    ∧ (∀ cfg req p f now,
        ((HandleHTTPRequest cfg req ⟨p, f, none⟩ now).2).redis = none) := by
  refine ⟨fun cfg ip now => rfl, fun cfg ip now => rfl, ?_, ?_⟩
  · intro cfg tok ip now
    unfold checkSecurity
    split_ifs with h1 h2
    · exact Or.inl rfl
    · exact Or.inl rfl
    · exact Or.inr rfl
  · intro cfg req p f now
    have h : checkSecurity cfg req.bypassHeader req.ip none now = SecOutcome.bypass ∨
        checkSecurity cfg req.bypassHeader req.ip none now = SecOutcome.proceed := by
      unfold checkSecurity
      split_ifs with h1 h2
      · exact Or.inl rfl
      · exact Or.inl rfl
      · exact Or.inr rfl
    simp only [HandleHTTPRequest]
    rcases h with h | h <;> rw [h] <;>
      simp only [recordFailedAttempt] <;> split_ifs <;> rfl

/-! ## Helper lemmas about the engine -/

/-- The result triple of the consume-or-deny tail does not depend on the
stores it writes to. -/
lemma finishCheck_fst (a b c d : Store) (key : String) (pol : Policy)
    (now tokens ttl : ℚ) :
    (finishCheck a b key pol now tokens ttl).1
      = (finishCheck c d key pol now tokens ttl).1 := by
  unfold finishCheck
  split_ifs <;> rfl

/-- `UpdateBucket` never changes the fault flags of a store. -/
lemma updateBucket_flags (s : Store) (now : ℚ) (key : String) (tokens ttl : ℚ) :
    ((s.updateBucket now key tokens ttl).1).getErr = s.getErr
    ∧ ((s.updateBucket now key tokens ttl).1).updErr = s.updErr := by
  unfold Store.updateBucket
  split_ifs <;> exact ⟨rfl, rfl⟩

/-- On a store that accepts writes, `UpdateBucket` stores the tokens with
the write-time stamp and `now + ttl` expiry under the given key. -/
lemma updateBucket_written (s : Store) (now : ℚ) (key : String) (tokens ttl : ℚ)
    (h : s.updErr = false) :
    ((s.updateBucket now key tokens ttl).1).buckets key
      = some ⟨tokens, now, now + ttl⟩ := by
  unfold Store.updateBucket
  rw [h]
  simp

/-- The consume-or-deny tail writes the same final bucket entry to both
stores (the consumed or unconsumed balance, write-time stamp, `now + ttl`
expiry), provided each store accepts writes. -/
lemma finishCheck_writes (a b : Store) (key : String) (pol : Policy)
    (now tokens ttl : ℚ) (ha : a.updErr = false) (hb : b.updErr = false) :
    ∃ tk : ℚ,
      ((finishCheck a b key pol now tokens ttl).2.1).buckets key
          = some ⟨tk, now, now + ttl⟩
      ∧ ((finishCheck a b key pol now tokens ttl).2.2).buckets key
          = some ⟨tk, now, now + ttl⟩ := by
  unfold finishCheck updateBothStorages
  split_ifs
  · exact ⟨tokens, updateBucket_written a now key tokens ttl ha,
      updateBucket_written b now key tokens ttl hb⟩
  · exact ⟨tokens - 1, updateBucket_written a now key (tokens - 1) ttl ha,
      updateBucket_written b now key (tokens - 1) ttl hb⟩

/-- If at least one store is readable, the read phase produces a value. -/
lemma bucketReadResult_ok (p f : Store) (now : ℚ) (key : String)
    (h : p.getErr = false ∨ f.getErr = false) :
    ∃ v, bucketReadResult p f now key = Except.ok v := by
  unfold bucketReadResult Store.getBucket
  by_cases hp : p.getErr = true
  · have hf : f.getErr = false := by
      rcases h with h | h
      · rw [h] at hp
        cases hp
      · exact h
    rw [hp, hf]
    exact ⟨_, rfl⟩
  · have hp2 : p.getErr = false := by simpa using hp
    rw [hp2]
    exact ⟨_, rfl⟩

/-! ## Engine claims -/

/-- C5.  When the primary store's read fails, `checkTokenBucket` reads
from the fallback store and completes the check with the same outcome a
healthy primary holding the fallback's data would produce; only when both
reads fail does it return `(false, 0, err)`, and in that case it touches
neither store. -/
theorem C5_primary_failure_falls_back (p f : Store) (key : String)
    (pol : Policy) (now : ℚ) (hp : p.getErr = true) :
    (f.getErr = false →
      (checkTokenBucket p f key pol now).1
        = (checkTokenBucket
            { buckets := f.buckets, getErr := false, updErr := p.updErr }
            f key pol now).1)
    ∧ (f.getErr = true →
      checkTokenBucket p f key pol now = ((false, 0, true), p, f)) := by
  constructor
  · intro hf
    rcases hv : inMemoryGetBucket f.buckets now key with ⟨t, lu⟩
    simp only [checkTokenBucket, bucketReadResult, Store.getBucket, hp, hf, hv,
      if_true, if_false]
    simp only [Bool.false_eq_true, if_false]
    by_cases hlu : lu = 0
    · simp only [hlu, if_pos rfl]
      exact finishCheck_fst _ _ _ _ key pol now _ _
    · simp only [if_neg hlu]
      exact finishCheck_fst _ _ _ _ key pol now _ _
  · intro hf
    simp [checkTokenBucket, bucketReadResult, Store.getBucket, hp, hf]

/-- C6.  Every check whose read phase succeeds writes the bucket state to
both the primary and the fallback store (the same entry in each,
regardless of which store supplied the read), and the returned
`(allowed, retryAfterSeconds, error)` triple is unchanged by write
failures of either store. -/
theorem C6_dual_write_errors_absorbed (p f : Store) (key : String)
    (pol : Policy) (now : ℚ) (hread : p.getErr = false ∨ f.getErr = false) :
    (∀ e1 e2 : Bool,
      (checkTokenBucket { p with updErr := e1 } { f with updErr := e2 }
          key pol now).1
        = (checkTokenBucket p f key pol now).1)
    ∧ (p.updErr = false → f.updErr = false →
      ∃ tk : ℚ,
        ((checkTokenBucket p f key pol now).2.1).buckets key
            = some ⟨tk, now, now + bucketTTL pol⟩
        ∧ ((checkTokenBucket p f key pol now).2.2).buckets key
            = some ⟨tk, now, now + bucketTTL pol⟩) := by
  have hv : ∀ e1 e2 : Bool,
      bucketReadResult { p with updErr := e1 } { f with updErr := e2 } now key
        = bucketReadResult p f now key := by
    intro e1 e2
    simp only [bucketReadResult, Store.getBucket]
  constructor
  · intro e1 e2
    rcases hr : bucketReadResult p f now key with herr | ⟨t, lu⟩
    · simp only [checkTokenBucket, hv, hr]
    · simp only [checkTokenBucket, hv, hr]
      by_cases hlu : lu = 0
      · simp only [hlu, if_pos rfl]
        exact finishCheck_fst _ _ _ _ key pol now _ _
      · simp only [if_neg hlu]
        exact finishCheck_fst _ _ _ _ key pol now _ _
  · intro hpu hfu
    rcases hr : bucketReadResult p f now key with herr | ⟨t, lu⟩
    · exfalso
      obtain ⟨v, hok⟩ := bucketReadResult_ok p f now key hread
      rw [hok] at hr
      cases hr
    · simp only [checkTokenBucket, hr]
      by_cases hlu : lu = 0
      · simp only [hlu, if_pos rfl]
        refine finishCheck_writes _ _ key pol now _ _ ?_ ?_
        · exact ((updateBucket_flags p now key _ _).2).trans hpu
        · exact ((updateBucket_flags f now key _ _).2).trans hfu
      · simp only [if_neg hlu]
        exact finishCheck_writes _ _ key pol now _ _ hpu hfu

/-- Reading an initialized, unexpired entry returns its stored fields. -/
lemma bucketReadResult_entry (p f : Store) (now : ℚ) (key : String)
    (b : BucketState) (hg : p.getErr = false) (hb : p.buckets key = some b)
    (hexp : ¬ b.expiry < now) :
    bucketReadResult p f now key = Except.ok (b.tokens, b.lastUpdate) := by
  unfold bucketReadResult Store.getBucket inMemoryGetBucket
  rw [hg, hb]
  simp [hexp]

/-- C4.  On an initialized bucket whose refilled token count is below 1,
the check denies with `secondsToWait = ceil((1 - tokens)/TokensPerSecond)`
floored at 1 (hence always at least 1), returns no error, and persists
the unconsumed refilled balance to both stores — no token is consumed on
denial. -/
theorem C4_denial_returns_wait_and_persists (p f : Store) (key : String)
    (pol : Policy) (now : ℚ) (b : BucketState)
    (hg : p.getErr = false) (hb : p.buckets key = some b)
    (hexp : ¬ b.expiry < now) (hlu : b.lastUpdate ≠ 0)
    (hlow : refillTokens pol b.tokens b.lastUpdate now < 1)
    (hpu : p.updErr = false) (hfu : f.updErr = false) :
    (checkTokenBucket p f key pol now).1
      = (false,
         max 1 (Int.ceil
           ((1 - refillTokens pol b.tokens b.lastUpdate now) / pol.TokensPerSecond)),
         false)
    ∧ 1 ≤ (checkTokenBucket p f key pol now).1.2.1
    ∧ ((checkTokenBucket p f key pol now).2.1).buckets key
        = some ⟨refillTokens pol b.tokens b.lastUpdate now, now, now + bucketTTL pol⟩
    ∧ ((checkTokenBucket p f key pol now).2.2).buckets key
        = some ⟨refillTokens pol b.tokens b.lastUpdate now, now, now + bucketTTL pol⟩ := by
  have hread := bucketReadResult_entry p f now key b hg hb hexp
  have hmax : ∀ s0 : Int, (if s0 < 1 then (1 : Int) else s0) = max 1 s0 := by
    intro s0
    rcases lt_or_le s0 1 with h | h
    · rw [if_pos h, max_eq_left (le_of_lt h)]
    · rw [if_neg (not_lt.mpr h), max_eq_right h]
  simp only [checkTokenBucket, hread, if_neg hlu, finishCheck, if_pos hlow,
    updateBothStorages]
  refine ⟨by rw [hmax], ?_, ?_, ?_⟩
  · simp only [hmax]
    exact le_max_left 1 _
  · exact updateBucket_written p now key _ _ hpu
  · exact updateBucket_written f now key _ _ hfu

/-- C3.  On an initialized bucket the check admits exactly when the
continuously refilled count `min(BurstCapacity, tokens + elapsed *
TokensPerSecond)` reaches 1; that count is the very formula of the claim,
is monotone in elapsed time, never exceeds the burst capacity, and
re-refilling from any intermediate persist point yields the same count as
refilling in one go — the refill has no discrete tick boundaries. -/
theorem C3_continuous_refill (pol : Policy) (p f : Store) (key : String)
    (b : BucketState) (now : ℚ) (hs : 0 ≤ pol.TokensPerSecond) :
    (p.getErr = false → p.buckets key = some b → ¬ b.expiry < now →
      b.lastUpdate ≠ 0 →
      ((checkTokenBucket p f key pol now).1.1 = true
        ↔ 1 ≤ refillTokens pol b.tokens b.lastUpdate now))
    ∧ (∀ t lu n, refillTokens pol t lu n
        = min ((pol.BurstCapacity : ℚ)) (t + (n - lu) * pol.TokensPerSecond))
    ∧ (∀ t lu n1 n2, n1 ≤ n2 →
        refillTokens pol t lu n1 ≤ refillTokens pol t lu n2)
    ∧ (∀ t lu n, refillTokens pol t lu n ≤ (pol.BurstCapacity : ℚ))
    ∧ (∀ t lu mid n, lu ≤ mid → mid ≤ n →
        refillTokens pol (refillTokens pol t lu mid) mid n
          = refillTokens pol t lu n) := by
  refine ⟨?_, fun t lu n => rfl, ?_, ?_, ?_⟩
  · intro hg hb hexp hlu
    have hread := bucketReadResult_entry p f now key b hg hb hexp
    simp only [checkTokenBucket, hread, if_neg hlu, finishCheck]
    by_cases h1 : refillTokens pol b.tokens b.lastUpdate now < 1
    · rw [if_pos h1]
      exact iff_of_false (by simp) (not_le.mpr h1)
    · rw [if_neg h1]
      exact iff_of_true rfl (not_lt.mp h1)
  · intro t lu n1 n2 h
    exact min_le_min le_rfl
      (add_le_add_left (mul_le_mul_of_nonneg_right (by linarith) hs) t)
  · intro t lu n
    exact min_le_left _ _
  · intro t lu mid n hlm hmn
    unfold refillTokens
    have hb0 : 0 ≤ (n - mid) * pol.TokensPerSecond :=
      mul_nonneg (by linarith) hs
    rcases le_total (t + (mid - lu) * pol.TokensPerSecond)
        ((pol.BurstCapacity : ℚ)) with h | h
    · rw [min_eq_right h]
      have harith : t + (mid - lu) * pol.TokensPerSecond
          + (n - mid) * pol.TokensPerSecond
          = t + (n - lu) * pol.TokensPerSecond := by ring
      rw [harith]
    · rw [min_eq_left h, min_eq_left (le_add_of_nonneg_right hb0),
        min_eq_left (by nlinarith)]

/-! ## Security-gate claims -/

/-- The whitelist semantics the spec asks for, specialised to the one CIDR
shape needed for a counterexample; this definition follows the spec's
words, not the source: an address `ip` is a CIDR match for the whitelist
entry `ip ++ "/32"` (the /32 block contains exactly that address). -/
def specMatchesCIDR32 (entry ip : String) : Bool :=
  entry = ip ++ "/32"

/-- A config whose whitelist holds one CIDR entry. -/
def secWL : SecurityConfig :=
  { BypassTokens := [], WhitelistIPs := ["10.1.2.3/32"],
    RequireAuthentication := false, MaxFailedAttempts := 3,
    BlockDuration := 600 }

/-- Rate limiter config wrapping `secWL`. -/
def cfgWL : RateLimiterConfig :=
  { TierPolicy := [], DefaultPolicy := polTest, keyPfx := "rl",
    GlobalSecurity := secWL }

/-- C7, counterexample.  The claim says a source IP matching a whitelist
entry by CIDR match is bypassed.  With whitelist `["10.1.2.3/32"]` the
address `10.1.2.3` is a CIDR match of the entry, yet `checkSecurity`
does not bypass it — `IsIPWhitelisted` compares whitelist entries by
exact string equality only. -/
theorem C7_counterexample_cidr_not_matched :
    specMatchesCIDR32 ("10.1.2.3/32") ("10.1.2.3") = true
    ∧ cfgWL.GlobalSecurity.WhitelistIPs = ["10.1.2.3/32"]
    ∧ checkSecurity cfgWL ("") ("10.1.2.3") none 100 = SecOutcome.proceed := by
  refine ⟨by decide, rfl, by decide⟩

/-- C7, amended.  Short-circuit order of the security check, with the
whitelist matched by exact string equality only (CIDR entries are not
interpreted): a presented bypass token matching a configured token (all
configured tokens being non-empty) bypasses immediately — the handler
then passes the request on without consulting the bucket stores at all,
whatever their state; otherwise an exactly whitelisted IP bypasses,
whatever the block state; only otherwise is the block / failed-attempt
state consulted. -/
theorem C7_security_short_circuit_order (cfg : RateLimiterConfig)
    (token ip : String) (redis : Option RedisSecState) (now : ℚ)
    (hclean : ("" : String) ∉ cfg.GlobalSecurity.BypassTokens) :
    (token ∈ cfg.GlobalSecurity.BypassTokens →
      checkSecurity cfg token ip redis now = SecOutcome.bypass
      ∧ ∀ (req : Request) (st : SysState), req.bypassHeader = token →
          HandleHTTPRequest cfg req st now = (HttpOutcome.next, st))
    ∧ (token ∉ cfg.GlobalSecurity.BypassTokens →
      ip ∈ cfg.GlobalSecurity.WhitelistIPs →
      checkSecurity cfg token ip redis now = SecOutcome.bypass)
    ∧ (token ∉ cfg.GlobalSecurity.BypassTokens →
      ip ∉ cfg.GlobalSecurity.WhitelistIPs →
      checkSecurity cfg token ip redis now
        = match checkIPBlocked cfg ip redis now with
          | BlockCheckResult.err => SecOutcome.err
          | BlockCheckResult.blockedResp r => SecOutcome.respondBlocked r
          | BlockCheckResult.slowdownResp r => SecOutcome.respondSlowdown r
          | BlockCheckResult.clear => SecOutcome.proceed) := by
  have hval : ∀ t : String, t ≠ "" →
      (cfg.GlobalSecurity.ValidateBypassToken t
        = cfg.GlobalSecurity.BypassTokens.contains t) := by
    intro t ht
    unfold SecurityConfig.ValidateBypassToken
    rw [if_neg ht]
  refine ⟨?_, ?_, ?_⟩
  · intro htok
    have hne : token ≠ "" := by
      intro h
      rw [h] at htok
      exact hclean htok
    have hsec : ∀ (ip2 : String) (rd : Option RedisSecState),
        checkSecurity cfg token ip2 rd now = SecOutcome.bypass := by
      intro ip2 rd
      unfold checkSecurity
      rw [if_pos ⟨hne, by
        rw [hval token hne]
        exact List.elem_eq_true_of_mem htok⟩]
    refine ⟨hsec ip redis, ?_⟩
    intro req st hreq
    simp only [HandleHTTPRequest, hreq, hsec req.ip st.redis]
  · intro htok hip
    have h1 : ¬(token ≠ ""
        ∧ cfg.GlobalSecurity.ValidateBypassToken token = true) := by
      rintro ⟨hne, hv⟩
      rw [hval token hne] at hv
      exact htok (List.mem_of_elem_eq_true hv)
    have h2 : cfg.GlobalSecurity.IsIPWhitelisted ip = true := by
      unfold SecurityConfig.IsIPWhitelisted
      exact List.elem_eq_true_of_mem hip
    unfold checkSecurity
    rw [if_neg h1, if_pos h2]
  · intro htok hip
    have h1 : ¬(token ≠ ""
        ∧ cfg.GlobalSecurity.ValidateBypassToken token = true) := by
      rintro ⟨hne, hv⟩
      rw [hval token hne] at hv
      exact htok (List.mem_of_elem_eq_true hv)
    have h2 : ¬ cfg.GlobalSecurity.IsIPWhitelisted ip = true := by
      intro hv
      unfold SecurityConfig.IsIPWhitelisted at hv
      exact hip (List.mem_of_elem_eq_true hv)
    unfold checkSecurity
    rw [if_neg h1, if_neg h2]

/-- C9.  The authentication-tier halving: when the resolved policy
requires authentication and the request resolved to an IP-based identity
(no user id supplied), the policy handed to the bucket check has
`TokensPerSecond` multiplied by one half and `BurstCapacity` integer-
halved; with an authenticated identity, or without the requirement, the
policy is used unchanged.  The halving acts on the per-request copy of
the policy (Go map reads of struct values copy them, which the embedding
mirrors): the tier store still resolves to the original policy, which
differs from the halved copy whenever the rate is positive. -/
theorem C9_auth_halving_is_local (cfg : RateLimiterConfig) (req : Request)
    (base : Policy) (hbase : resolvePolicy cfg (resolveTier req) = base) :
    (req.userID = "" → base.Security.RequireAuthentication = true →
      effectivePolicy cfg req
        = { base with TokensPerSecond := base.TokensPerSecond * (1 / 2),
                      BurstCapacity := base.BurstCapacity / 2 })
    ∧ (base.Security.RequireAuthentication = false →
      effectivePolicy cfg req = base)
    ∧ (req.userID ≠ "" → req.userID ≠ req.ip →
      effectivePolicy cfg req = base)
    ∧ resolvePolicy cfg (resolveTier req) = base
    ∧ (0 < base.TokensPerSecond → req.userID = "" →
      base.Security.RequireAuthentication = true →
      effectivePolicy cfg req ≠ base) := by
  refine ⟨?_, ?_, ?_, hbase, ?_⟩
  · intro hid hauth
    simp [effectivePolicy, resolveIdentifier, hid, hbase, hauth]
  · intro hauth
    simp [effectivePolicy, resolveIdentifier, hbase, hauth]
  · intro hid hip
    simp [effectivePolicy, resolveIdentifier, if_neg hid, hbase, hip]
  · intro hpos hid hauth heq
    have h1 := congrArg Policy.TokensPerSecond heq
    rw [(by
      simp [effectivePolicy, resolveIdentifier, hid, hbase, hauth] :
        effectivePolicy cfg req
          = { base with TokensPerSecond := base.TokensPerSecond * (1 / 2),
                        BurstCapacity := base.BurstCapacity / 2 })] at h1
    simp only [] at h1
    linarith [h1]

/-! ## Witness fixtures and witnesses -/

/-- A healthy, initialized bucket entry: 3 tokens, updated at 50, expiring
at 200. -/
def bEntry : BucketState := { tokens := 3, lastUpdate := 50, expiry := 200 }

/-- A store holding `bEntry` under key "k". -/
def storeB : Store :=
  { buckets := fun k => if k = "k" then some bEntry else none,
    getErr := false, updErr := false }

/-- A nearly empty bucket entry: a quarter token, updated at 100. -/
def bQuarter : BucketState := { tokens := 1 / 4, lastUpdate := 100, expiry := 200 }

/-- A store holding `bQuarter` under key "k". -/
def storeQuarter : Store :=
  { buckets := fun k => if k = "k" then some bQuarter else none,
    getErr := false, updErr := false }

/-- A store whose reads always fail (the test double of bucket_test.go). -/
def failStore : Store :=
  { buckets := fun _ => none, getErr := true, updErr := false }

/-- Witness for C3 at a concrete input: the initialized entry `bEntry`
read at clock 100 under `polTest`. -/
theorem C3_witness :
    (checkTokenBucket storeB emptyStore ("k") polTest 100).1.1 = true
      ↔ 1 ≤ refillTokens polTest bEntry.tokens bEntry.lastUpdate 100 :=
  (C3_continuous_refill polTest storeB emptyStore ("k") bEntry 100
    (by norm_num [polTest, secPlain])).1 rfl rfl
    (by norm_num [bEntry]) (by norm_num [bEntry])

/-- Witness for C4 at a concrete input: a quarter-token bucket read at its
own update instant is denied with the claimed wait. -/
theorem C4_witness :
    (checkTokenBucket storeQuarter emptyStore ("k") polTest 100).1
      = (false,
         max 1 (Int.ceil
          ((1 - refillTokens polTest bQuarter.tokens bQuarter.lastUpdate 100)
            / polTest.TokensPerSecond)),
         false) :=
  (C4_denial_returns_wait_and_persists storeQuarter emptyStore ("k") polTest
    100 bQuarter rfl rfl (by norm_num [bQuarter]) (by norm_num [bQuarter])
    (by norm_num [refillTokens, bQuarter, polTest, min_lt_iff]) rfl rfl).1

/-- Witness for C5 at a concrete input: with a failing primary, the check
result equals that of a healthy primary holding the fallback's data. -/
theorem C5_witness :
    (checkTokenBucket failStore emptyStore ("k") polTest 100).1
      = (checkTokenBucket
          { buckets := emptyStore.buckets, getErr := false,
            updErr := failStore.updErr }
          emptyStore ("k") polTest 100).1 :=
  (C5_primary_failure_falls_back failStore emptyStore ("k") polTest 100 rfl).1
    rfl

/-- Witness for C6 at a concrete input: with both stores healthy, the
check writes the same entry under the key to both stores. -/
theorem C6_witness :
    ∃ tk : ℚ,
      ((checkTokenBucket emptyStore emptyStore ("k") polTest 100).2.1).buckets
          ("k") = some ⟨tk, 100, 100 + bucketTTL polTest⟩
      ∧ ((checkTokenBucket emptyStore emptyStore ("k") polTest 100).2.2).buckets
          ("k") = some ⟨tk, 100, 100 + bucketTTL polTest⟩ :=
  (C6_dual_write_errors_absorbed emptyStore emptyStore ("k") polTest 100
    (Or.inl rfl)).2 rfl rfl

/-- A config with one non-empty bypass token and one whitelisted IP. -/
def secTok : SecurityConfig :=
  { BypassTokens := ["secret"], WhitelistIPs := ["7.7.7.7"],
    RequireAuthentication := false, MaxFailedAttempts := 3,
    BlockDuration := 600 }

/-- Rate limiter config wrapping `secTok`. -/
def cfgTok : RateLimiterConfig :=
  { TierPolicy := [], DefaultPolicy := polTest, keyPfx := "rl",
    GlobalSecurity := secTok }

/-- Witness for the amended C7 at concrete inputs: a matching token
bypasses (whatever the IP), and a whitelisted IP bypasses when the token
does not match. -/
theorem C7_witness :
    checkSecurity cfgTok ("secret") ("1.1.1.1") none 100 = SecOutcome.bypass
    ∧ checkSecurity cfgTok ("nope") ("7.7.7.7") none 100 = SecOutcome.bypass :=
  ⟨((C7_security_short_circuit_order cfgTok ("secret") ("1.1.1.1") none 100
      (by decide)).1 (by decide)).1,
   (C7_security_short_circuit_order cfgTok ("nope") ("7.7.7.7") none 100
      (by decide)).2.1 (by decide) (by decide)⟩

/-- Redis security state holding two prior failed attempts for
9.9.9.9 (entry live until 5000) and no block. -/
def rsTwoFails : RedisSecState :=
  { failed := fun k =>
      if k = "rl:failed:9.9.9.9" then some ⟨2, 5000⟩ else none,
    blockedUntil := fun _ => none,
    cmdErr := false }

/-- Rate limiter config wrapping `secPlain` (threshold 3, base block
duration 600 seconds). -/
def cfgPlain : RateLimiterConfig :=
  { TierPolicy := [], DefaultPolicy := polTest, keyPfx := "rl",
    GlobalSecurity := secPlain }

/-- C8.  The claim says that once the running failed count reaches
`MaxFailedAttempts` a block of strictly escalating duration is written.
The source never gets there: the pipeline's results are `Incr` (index 0,
an IntCmd), `Expire` (index 1, a BoolCmd) and `Get` (index 2, a
StringCmd), and the count is read as `results[1].(*redis.IntCmd).Val()` —
a type assertion on the `Expire` BoolCmd that panics.  So whenever Redis
is configured and the pipeline succeeds, `recordFailedAttempt` increments
the counter with its 24-hour stamp, leaves the block state untouched, and
crashes (general conjunct, stated for every fault-free redis state).  At
the concrete failing input — two live prior failures, threshold 3, so the
incremented count reaches `MaxFailedAttempts` — the call panics and no
block is written. -/
theorem C8_panics_before_blocking :
    (∀ (cfg : RateLimiterConfig) (ip : String)
        (fl : String → Option FailedEntry) (bu : String → Option ℚ) (now : ℚ),
      recordFailedAttempt cfg ip (some ⟨fl, bu, false⟩) now
        = (some ⟨fun k =>
              if k = failedKeyFor cfg ip
              then some ⟨liveFailed ⟨fl, bu, false⟩ now (failedKeyFor cfg ip) + 1,
                  now + 86400⟩
              else fl k,
            bu, false⟩,
           GoOutcome.panicked))
    ∧ cfgPlain.GlobalSecurity.MaxFailedAttempts
        ≤ liveFailed rsTwoFails 1000 (failedKeyFor cfgPlain ("9.9.9.9")) + 1
    ∧ (recordFailedAttempt cfgPlain ("9.9.9.9") (some rsTwoFails) 1000).2
        = GoOutcome.panicked
    ∧ ∃ rs2,
        (recordFailedAttempt cfgPlain ("9.9.9.9") (some rsTwoFails) 1000).1
          = some rs2
        ∧ rs2.blockedUntil (blockKeyFor cfgPlain ("9.9.9.9")) = none := by
  refine ⟨fun cfg ip fl bu now => rfl, ?_, rfl, ⟨_, rfl, rfl⟩⟩
  have hs : ("rl" ++ ":failed:" ++ "9.9.9.9" : String)
      = "rl:failed:9.9.9.9" := rfl
  norm_num [liveFailed, rsTwoFails, failedKeyFor, cfgPlain, secPlain, hs]

/-- A security config requiring authentication. -/
def secAuth : SecurityConfig :=
  { BypassTokens := [], WhitelistIPs := [], RequireAuthentication := true,
    MaxFailedAttempts := 3, BlockDuration := 600 }

/-- A policy requiring authentication: burst 10, four tokens per second. -/
def polAuth : Policy :=
  { MaxRequests := 100, BurstCapacity := 10, TokensPerSecond := 4,
    WebSocketAllowed := true, Security := secAuth }

/-- A config whose free tier uses `polAuth`. -/
def cfgAuth : RateLimiterConfig :=
  { TierPolicy := [("free", polAuth)], DefaultPolicy := polTest,
    keyPfx := "rl", GlobalSecurity := secPlain }

/-- A request with no user id (IP-based identity) and no tier header. -/
def reqAnon : Request :=
  { userID := "", tier := "", ip := "5.5.5.5", routePath := "/api/x",
    bypassHeader := "" }

/-- Witness for C9 at a concrete input: the anonymous request against the
authentication-requiring free tier gets the halved local policy copy. -/
theorem C9_witness :
    effectivePolicy cfgAuth reqAnon
      = { polAuth with TokensPerSecond := polAuth.TokensPerSecond * (1 / 2),
                       BurstCapacity := polAuth.BurstCapacity / 2 } :=
  (C9_auth_halving_is_local cfgAuth reqAnon polAuth (by decide)).1 rfl rfl

end RateLimiter
